import Mathlib

/-!
Verification of the rugshield-tgbot risk-scoring / classification engine.

The definitions below are a shallow embedding of the Python sources:
  src/modules/analyzer.py        (TokenAnalyzer: _fetch_token_data,
                                  _analyze_metrics, _analyze_text_data,
                                  _assess_risk)
  src/modules/social_analyzer.py (SocialAnalyzer._determine_activity_level)
  src/modules/scam_database.py   (ScamDatabase._format_scam_tweet)

Python floats are modelled as rationals (all constants of the program,
0.01, 0.1, 0.5, are exactly representable and the code only compares,
adds, multiplies and divides them), Python ints as integers, and Python
strings as Lean strings over their code points (Python len/slicing count
code points, as the Lean List Char view does).
-/

/-- Python string slicing s[:n]: the first n code points (all of s when it
is shorter). -/
def pySlice (s : String) (n : Nat) : String := ⟨s.data.take n⟩

/-- Python str.upper, modelled code-point-wise (the program only upcases
hex-address prefixes, which are ASCII). -/
def pyUpper (s : String) : String := ⟨s.data.map Char.toUpper⟩

/-- Python str.lower, modelled code-point-wise (the keyword lists the
program lowers against are ASCII). -/
def pyLower (s : String) : String := ⟨s.data.map Char.toLower⟩

/-- Contiguous-sublist test: does needle occur inside the second list? -/
def subListOf (needle : List Char) : List Char → Bool
  | [] => needle.isEmpty
  | c :: rest => needle.isPrefixOf (c :: rest) || subListOf needle rest

/-- Python `needle in haystack` on strings: contiguous substring test
(the empty needle is contained in every string, as in Python). -/
def pyContains (haystack needle : String) : Bool :=
  subListOf needle.data haystack.data

/-- The token record produced by TokenAnalyzer._fetch_token_data
(src/modules/analyzer.py): keys price, market_cap, volume_24h, holders,
description, symbol, name. -/
structure TokenSnapshot where
  price : ℚ
  market_cap : ℚ
  volume_24h : ℚ
  holders : ℤ
  description : String
  symbol : String
  name : String
deriving DecidableEq, Repr

/-- The risk_metrics dict built at analyzer.py lines 426-431. -/
structure RiskMetrics where
  market_cap_risk : Bool
  volume_risk : Bool
  holder_risk : Bool
  liquidity_risk : Bool
deriving DecidableEq, Repr

/-- The dict returned by TokenAnalyzer._assess_risk.  On the exception
path (lines 433-440) Python returns `"risk_metrics": {}`; the empty dict
is modelled as `none`. -/
structure RiskAssessment where
  overall_risk : String
  risk_factors : List String
  recommendations : List String
  risk_metrics : Option RiskMetrics
deriving DecidableEq, Repr

/-- Market-cap tier of _assess_risk (analyzer.py lines 372-379): the
(factors, recommendations) appended by the if/elif block. -/
def marketCapTier (s : TokenSnapshot) : List String × List String :=
  if s.market_cap < 100000 then
    (["Very low market cap"], ["Extreme caution required"])
  else if s.market_cap < 1000000 then
    (["Low market cap"], ["High risk investment"])
  else ([], [])

/-- Volume tier of _assess_risk (analyzer.py lines 381-388). -/
def volumeTier (s : TokenSnapshot) : List String × List String :=
  if s.volume_24h = 0 then
    (["No trading volume"], ["Avoid trading"])
  else if s.volume_24h < s.market_cap * (1/100) then
    (["Low trading volume"], ["Limited liquidity"])
  else ([], [])

/-- Holder tier of _assess_risk (analyzer.py lines 390-397). -/
def holderTier (s : TokenSnapshot) : List String × List String :=
  if s.holders < 100 then
    (["Very few holders"], ["High concentration risk"])
  else if s.holders < 1000 then
    (["Limited holder base"], ["Monitor holder distribution"])
  else ([], [])

/-- Liquidity tier of _assess_risk (analyzer.py lines 399-407): guarded by
volume_24h > 0 and market_cap > 0, so the division is defined. -/
def liquidityTier (s : TokenSnapshot) : List String × List String :=
  if s.volume_24h > 0 ∧ s.market_cap > 0 then
    if s.volume_24h / s.market_cap < 1/100 then
      (["Low liquidity"], ["Check liquidity before trading"])
    else if s.volume_24h / s.market_cap < 1/10 then
      (["Moderate liquidity"], ["Monitor liquidity changes"])
    else ([], [])
  else ([], [])

/-- Overall risk label from the risk score (analyzer.py lines 410-420). -/
def riskLevel (risk_score : Nat) : String :=
  if risk_score ≥ 4 then "extreme"
  else if risk_score ≥ 3 then "high"
  else if risk_score ≥ 2 then "medium"
  else if risk_score ≥ 1 then "low"
  else "minimal"

/-- TokenAnalyzer._assess_risk (analyzer.py lines 364-440).

The four tier blocks append to risk_factors/recommendations in program
order.  While building the returned dict, line 430 evaluates
`volume_24h > 0 and (volume_24h / market_cap) < 1/10`: when
volume_24h > 0 and market_cap == 0 the division raises ZeroDivisionError
(the `and` does not short-circuit it), the except clause catches it and
the error dict of lines 435-440 is returned instead.  The tier
computations before that point are pure, so testing the fault condition
first is observationally the same as the raise-while-building of the source. -/
def assess_risk (s : TokenSnapshot) : RiskAssessment :=
  let fs := (marketCapTier s).1 ++ (volumeTier s).1 ++ (holderTier s).1 ++
    (liquidityTier s).1
  let recs := (marketCapTier s).2 ++ (volumeTier s).2 ++ (holderTier s).2 ++
    (liquidityTier s).2
  if s.volume_24h > 0 ∧ s.market_cap = 0 then
    ⟨"unknown", ["Error in risk assessment"],
      ["Unable to generate recommendations"], none⟩
  else
    ⟨riskLevel fs.length, fs, recs,
      some ⟨decide (s.market_cap < 1000000),
            decide (s.volume_24h < s.market_cap * (1/100)),
            decide (s.holders < 1000),
            decide (s.volume_24h > 0) && decide (s.volume_24h / s.market_cap < 1/10)⟩⟩

/-- The dict returned by TokenAnalyzer._analyze_metrics (analyzer.py lines
266-277); the raw_metrics sub-dict is flattened into the raw_* fields.
The except branch of lines 278-286 is unreachable: the body performs no
partial operation (its one division, line 260, is guarded by
market_cap > 0 and volume_24h > 0). -/
structure MetricsAnalysis where
  price_trend : String
  volume_analysis : String
  holder_distribution : String
  liquidity_analysis : String
  raw_price : ℚ
  raw_market_cap : ℚ
  raw_volume_24h : ℚ
  raw_holders : ℤ
deriving DecidableEq, Repr

/-- TokenAnalyzer._analyze_metrics (analyzer.py lines 223-286).
Constants 0.1, 0.01, 0.5 of the source are the exact rationals
1/10, 1/100, 1/2. -/
def analyze_metrics (s : TokenSnapshot) : MetricsAnalysis :=
  let price_trend :=
    if s.price > 0 then
      if s.volume_24h > s.market_cap * (1/10) then "bullish"
      else if s.volume_24h < s.market_cap * (1/100) then "bearish"
      else "neutral"
    else "neutral"
  let volume_analysis :=
    if s.volume_24h > 0 then
      if s.volume_24h > s.market_cap * (1/2) then "high"
      else if s.volume_24h > s.market_cap * (1/10) then "medium"
      else "low"
    else "low"
  let holder_distribution :=
    if s.holders > 0 then
      if s.holders > 10000 then "distributed"
      else if s.holders > 1000 then "moderate"
      else "concentrated"
    else "concentrated"
  let liquidity_analysis :=
    if s.market_cap > 0 ∧ s.volume_24h > 0 then
      if s.volume_24h / s.market_cap > 1/2 then "high"
      else if s.volume_24h / s.market_cap > 1/10 then "medium"
      else "insufficient"
    else "insufficient"
  ⟨price_trend, volume_analysis, holder_distribution, liquidity_analysis,
    s.price, s.market_cap, s.volume_24h, s.holders⟩

/-- Keyword list at analyzer.py line 299. -/
def positive_words : List String :=
  ["secure", "safe", "trusted", "verified", "audited", "reliable"]

/-- Keyword list at analyzer.py line 300. -/
def negative_words : List String :=
  ["scam", "fake", "suspicious", "unverified", "risky", "warning"]

/-- Keyword list at analyzer.py line 319. -/
def technical_terms : List String :=
  ["smart contract", "blockchain", "tokenomics", "liquidity", "audit"]

/-- Keyword list at analyzer.py line 323. -/
def warning_terms : List String :=
  ["guaranteed", "100x", "moon", "get rich", "quick profit"]

/-- Python `sum(1 for word in terms if word in text)` (analyzer.py lines
303-304, 320, 324): how many of the terms occur in the text. -/
def countContained (terms : List String) (text : String) : Nat :=
  (terms.filter (fun t => pyContains text t)).length

/-- length_score of analyzer.py line 316: min(len(description)/500, 1). -/
def length_score (description : String) : ℚ :=
  min ((description.length : ℚ) / 500) 1

/-- technical_score of analyzer.py line 320, applied to the lowered
description. -/
def technical_score (description_lower : String) : ℚ :=
  (countContained technical_terms description_lower : ℚ) /
    (technical_terms.length : ℚ)

/-- warning_score of analyzer.py line 324, applied to the lowered
description. -/
def warning_score (description_lower : String) : ℚ :=
  1 - (countContained warning_terms description_lower : ℚ) /
    (warning_terms.length : ℚ)

/-- credibility_score of analyzer.py line 327 for a non-empty
description. -/
def credibility_of (description : String) : ℚ :=
  (length_score description + technical_score (pyLower description) +
    warning_score (pyLower description)) / 3

/-- sentiment of analyzer.py lines 296-309 for a non-empty description. -/
def sentiment_of (description : String) : String :=
  let dl := pyLower description
  if countContained positive_words dl > countContained negative_words dl then
    "positive"
  else if countContained negative_words dl > countContained positive_words dl then
    "negative"
  else "neutral"

/-- The description_analysis sub-dict of analyzer.py lines 348-352. -/
structure DescriptionAnalysis where
  length : Nat
  has_technical_terms : Bool
  has_warning_signs : Bool
deriving DecidableEq, Repr

/-- The dict returned by TokenAnalyzer._analyze_text_data.  On the
exception path (lines 354-362) Python returns
`"description_analysis": {}`; the empty dict is modelled as `none`. -/
structure TextAnalysis where
  sentiment : String
  credibility_score : ℚ
  social_media_presence : String
  community_engagement : String
  description_analysis : Option DescriptionAnalysis
deriving DecidableEq, Repr

/-- TokenAnalyzer._analyze_text_data (analyzer.py lines 288-362).

When the description is the empty string, both `if description:` blocks
(lines 297-309 and 313-327) are skipped, so the local names
description_lower, technical_terms and warning_terms are still unbound
when the description_analysis part of the return dict (lines 348-352) is built;
Python raises NameError there, the except clause catches it and the
default dict of lines 356-362 is returned.  With a non-empty description
no operation of the body can raise (the divisors at lines 316, 320, 324
are the constants 500, 5, 5). -/
def analyze_text_data (s : TokenSnapshot) : TextAnalysis :=
  if s.description = "" then
    ⟨"neutral", 1/2, "low", "minimal", none⟩
  else
    ⟨sentiment_of s.description,
     credibility_of s.description,
     (if s.holders > 1000 then "high"
      else if s.holders > 100 then "medium"
      else "low"),
     (if s.volume_24h > s.market_cap * (1/10) then "active"
      else if s.volume_24h > s.market_cap * (1/100) then "moderate"
      else "minimal"),
     some ⟨s.description.length,
           technical_terms.any (fun t => pyContains (pyLower s.description) t),
           warning_terms.any (fun t => pyContains (pyLower s.description) t)⟩⟩

/-- SocialAnalyzer._determine_activity_level (social_analyzer.py lines
104-115); the argument is a Python int. -/
def determine_activity_level (total_mentions : ℤ) : String :=
  if total_mentions > 1000 then "very_high"
  else if total_mentions > 500 then "high"
  else if total_mentions > 100 then "medium"
  else if total_mentions > 10 then "low"
  else "very_low"

/-- The fallback snapshot of TokenAnalyzer._fetch_token_data (analyzer.py
lines 123-132), returned when both the CoinGecko and the Etherscan
lookups fail: symbol is the upcased first 6 characters of the address,
name is "Token " followed by the first 6 characters unchanged.  (The
except path of lines 133-143 derives symbol and name the same way.) -/
def fallback_token_data (token_address : String) : TokenSnapshot :=
  ⟨0, 0, 0, 0, "No description available",
    pyUpper (pySlice token_address 6),
    "Token " ++ pySlice token_address 6⟩

/-- The warning-sign block of ScamDatabase._format_scam_tweet
(scam_database.py line 251): at most the first 3 signs, each prefixed
and newline-joined. -/
def formatWarningText (warning_signs : List String) : String :=
  String.intercalate "\n" ((warning_signs.take 3).map (fun sign => "⚠️ " ++ sign))

/-- ScamDatabase._format_scam_tweet (scam_database.py lines 239-269):
the triple-quoted f-string of lines 254-267 (it opens and closes with a
newline) truncated to 280 code points.  The Python expression
`evidence if evidence else ...` treats both None and the empty string
as absent. -/
def format_scam_tweet (token_address scam_type description : String)
    (warning_signs : List String) (evidence : Option String) : String :=
  let evidence_text :=
    match evidence with
    | some e => if e = "" then "Available upon request" else e
    | none => "Available upon request"
  let tweet :=
    "\n🚨 SCAM ALERT 🚨\n\nToken: " ++ token_address ++
    "\nType: " ++ scam_type ++ "\n\n" ++ description ++ "\n\n" ++
    formatWarningText warning_signs ++ "\n\n🔍 Evidence: " ++ evidence_text ++
    "\n\n#CryptoScam #ScamAlert #Crypto #Blockchain\n"
  pySlice tweet 280

/-! ## Helper lemmas -/

/-- On the normal path (no ZeroDivisionError at analyzer.py line 430)
_assess_risk returns the tier concatenations and the derived label. -/
theorem assess_risk_eq (s : TokenSnapshot) (h : ¬(s.volume_24h > 0 ∧ s.market_cap = 0)) :
    assess_risk s =
      ⟨riskLevel ((marketCapTier s).1 ++ (volumeTier s).1 ++ (holderTier s).1 ++
          (liquidityTier s).1).length,
        (marketCapTier s).1 ++ (volumeTier s).1 ++ (holderTier s).1 ++ (liquidityTier s).1,
        (marketCapTier s).2 ++ (volumeTier s).2 ++ (holderTier s).2 ++ (liquidityTier s).2,
        some ⟨decide (s.market_cap < 1000000),
              decide (s.volume_24h < s.market_cap * (1/100)),
              decide (s.holders < 1000),
              decide (s.volume_24h > 0) && decide (s.volume_24h / s.market_cap < 1/10)⟩⟩ := by
  unfold assess_risk
  simp only [if_neg h]

/-- On the fault path (volume_24h > 0 and market_cap == 0) _assess_risk
returns the error dict of analyzer.py lines 435-440. -/
theorem assess_risk_err (s : TokenSnapshot) (h : s.volume_24h > 0 ∧ s.market_cap = 0) :
    assess_risk s =
      ⟨"unknown", ["Error in risk assessment"],
        ["Unable to generate recommendations"], none⟩ := by
  unfold assess_risk
  simp only [if_pos h]

/-- C1 (amended): for every TokenSnapshot off the internal-fault path (that
is, unless volume_24h > 0 and market_cap = 0, where _assess_risk divides by
zero and returns its error dict), assess evaluates the four threshold tiers
in the fixed order market-cap, volume, holder, liquidity, each tier
appending at most one factor, and derives overall_risk as riskLevel of the
number of triggered factors (>= 4 extreme, >= 3 high, >= 2 medium, >= 1
low, 0 minimal); in particular for market_cap = 50000, volume_24h = 0,
holders = 50 (any price and description) the factor list is exactly
["Very low market cap", "No trading volume", "Very few holders"] and
overall_risk = "high". -/
theorem spec_C1 (s : TokenSnapshot) (h : ¬(s.volume_24h > 0 ∧ s.market_cap = 0)) :
    (assess_risk s).risk_factors =
      (marketCapTier s).1 ++ (volumeTier s).1 ++ (holderTier s).1 ++ (liquidityTier s).1 ∧
    (marketCapTier s).1.length ≤ 1 ∧ (volumeTier s).1.length ≤ 1 ∧
    (holderTier s).1.length ≤ 1 ∧ (liquidityTier s).1.length ≤ 1 ∧
    (assess_risk s).overall_risk = riskLevel (assess_risk s).risk_factors.length ∧
    (s.market_cap = 50000 → s.volume_24h = 0 → s.holders = 50 →
      (assess_risk s).risk_factors =
        ["Very low market cap", "No trading volume", "Very few holders"] ∧
      (assess_risk s).overall_risk = "high") := by
  obtain ⟨p, mc, v, hold, d, sy, nm⟩ := s
  have he := assess_risk_eq ⟨p, mc, v, hold, d, sy, nm⟩ h
  refine ⟨by rw [he], ?_, ?_, ?_, ?_, by rw [he], ?_⟩
  · unfold marketCapTier; split_ifs <;> simp
  · unfold volumeTier; split_ifs <;> simp
  · unfold holderTier; split_ifs <;> simp
  · unfold liquidityTier; split_ifs <;> simp
  · intro h1 h2 h3
    simp only at h1 h2 h3
    subst h1; subst h2; subst h3
    rw [assess_risk_eq _ (by norm_num)]
    norm_num [marketCapTier, volumeTier, holderTier, liquidityTier, riskLevel]

/-- C1 witness: the theorem applied to the concrete snapshot
price = 1, market_cap = 50000, volume_24h = 0, holders = 50. -/
theorem spec_C1_witness :
    (assess_risk ⟨1, 50000, 0, 50, "x", "S", "N"⟩).risk_factors =
      ["Very low market cap", "No trading volume", "Very few holders"] ∧
    (assess_risk ⟨1, 50000, 0, 50, "x", "S", "N"⟩).overall_risk = "high" :=
  (spec_C1 ⟨1, 50000, 0, 50, "x", "S", "N"⟩ (by norm_num)).2.2.2.2.2.2 rfl rfl rfl

/-- C1 counterexample: at market_cap = 0, volume_24h = 1 the code raises
ZeroDivisionError while building risk_metrics and returns the error
assessment, so the factor list is not the tier concatenation and
overall_risk is not derived from the triggered-factor count, refuting the
claim as stated for every TokenSnapshot. -/
theorem spec_C1_cex :
    (assess_risk ⟨0, 0, 1, 0, "", "", ""⟩).overall_risk = "unknown" ∧
    (assess_risk ⟨0, 0, 1, 0, "", "", ""⟩).risk_factors = ["Error in risk assessment"] ∧
    ¬((assess_risk ⟨0, 0, 1, 0, "", "", ""⟩).risk_factors =
        (marketCapTier ⟨0, 0, 1, 0, "", "", ""⟩).1 ++ (volumeTier ⟨0, 0, 1, 0, "", "", ""⟩).1 ++
        (holderTier ⟨0, 0, 1, 0, "", "", ""⟩).1 ++ (liquidityTier ⟨0, 0, 1, 0, "", "", ""⟩).1 ∧
      (assess_risk ⟨0, 0, 1, 0, "", "", ""⟩).overall_risk =
        riskLevel (assess_risk ⟨0, 0, 1, 0, "", "", ""⟩).risk_factors.length) := by
  rw [assess_risk_err _ (by norm_num)]
  norm_num [marketCapTier, volumeTier, holderTier, liquidityTier, riskLevel]

/-- C2: assess is total: on the internal-fault path (volume_24h > 0 and
market_cap = 0, the only partial operation of the body) it returns
overall_risk = "unknown" with the single factor "Error in risk assessment",
and on the normal path the risk_metrics booleans equal the stated formulas:
market_cap_risk = market_cap < 1000000, volume_risk =
volume_24h < market_cap * 0.01, holder_risk = holders < 1000, and
liquidity_risk = (volume_24h > 0 and volume_24h / market_cap < 0.1). -/
theorem spec_C2 (s : TokenSnapshot) :
    ((s.volume_24h > 0 ∧ s.market_cap = 0) ∧
      assess_risk s = ⟨"unknown", ["Error in risk assessment"],
        ["Unable to generate recommendations"], none⟩) ∨
    (¬(s.volume_24h > 0 ∧ s.market_cap = 0) ∧
      (assess_risk s).risk_metrics =
        some ⟨decide (s.market_cap < 1000000),
              decide (s.volume_24h < s.market_cap * (1/100)),
              decide (s.holders < 1000),
              decide (s.volume_24h > 0 ∧ s.volume_24h / s.market_cap < 1/10)⟩) := by
  by_cases h : s.volume_24h > 0 ∧ s.market_cap = 0
  · exact Or.inl ⟨h, assess_risk_err s h⟩
  · refine Or.inr ⟨h, ?_⟩
    rw [assess_risk_eq s h]
    simp [Bool.decide_and]

/-- C3 (amended): for every TokenSnapshot with market_cap = 2000000,
volume_24h = 1200000, holders = 15000, the metrics classifier returns
volume_analysis = "high", holder_distribution = "distributed",
liquidity_analysis = "high", and the risk assessor returns no factors and
overall_risk = "minimal"; price_trend, however, is "bullish" only when
price > 0 and is "neutral" otherwise (the claim asserted "bullish" for
unconstrained price). -/
theorem spec_C3 (s : TokenSnapshot) (h1 : s.market_cap = 2000000)
    (h2 : s.volume_24h = 1200000) (h3 : s.holders = 15000) :
    (analyze_metrics s).price_trend = (if s.price > 0 then "bullish" else "neutral") ∧
    (analyze_metrics s).volume_analysis = "high" ∧
    (analyze_metrics s).holder_distribution = "distributed" ∧
    (analyze_metrics s).liquidity_analysis = "high" ∧
    (assess_risk s).risk_factors = [] ∧
    (assess_risk s).overall_risk = "minimal" := by
  obtain ⟨p, mc, v, hold, d, sy, nm⟩ := s
  simp only at h1 h2 h3
  subst h1; subst h2; subst h3
  rw [assess_risk_eq _ (by norm_num)]
  refine ⟨?_, ?_, ?_, ?_, ?_, ?_⟩ <;>
    by_cases hp : p > 0 <;>
      norm_num [analyze_metrics, hp, marketCapTier, volumeTier, holderTier,
        liquidityTier, riskLevel]

/-- C3 witness: the theorem applied to the concrete snapshot with
price = 1. -/
theorem spec_C3_witness :
    (analyze_metrics ⟨1, 2000000, 1200000, 15000, "", "", ""⟩).price_trend =
      (if (1 : ℚ) > 0 then "bullish" else "neutral") ∧
    (analyze_metrics ⟨1, 2000000, 1200000, 15000, "", "", ""⟩).volume_analysis = "high" ∧
    (analyze_metrics ⟨1, 2000000, 1200000, 15000, "", "", ""⟩).holder_distribution = "distributed" ∧
    (analyze_metrics ⟨1, 2000000, 1200000, 15000, "", "", ""⟩).liquidity_analysis = "high" ∧
    (assess_risk ⟨1, 2000000, 1200000, 15000, "", "", ""⟩).risk_factors = [] ∧
    (assess_risk ⟨1, 2000000, 1200000, 15000, "", "", ""⟩).overall_risk = "minimal" :=
  spec_C3 ⟨1, 2000000, 1200000, 15000, "", "", ""⟩ rfl rfl rfl

/-- C3 counterexample: at price = 0 (which the claim leaves unconstrained)
the price trend is "neutral", not "bullish", refuting the claim as
stated. -/
theorem spec_C3_cex :
    (analyze_metrics ⟨0, 2000000, 1200000, 15000, "", "", ""⟩).price_trend = "neutral" ∧
    (analyze_metrics ⟨0, 2000000, 1200000, 15000, "", "", ""⟩).price_trend ≠ "bullish" := by
  norm_num [analyze_metrics]
  decide

/-- C8: risk factors and recommendations stay in 1:1 positional
correspondence for every TokenSnapshot: the lists have equal length (also
on the error path, where both are singletons), and each tier appends to
both or to neither (its factor part and recommendation part always have
the same length). -/
theorem spec_C8 (s : TokenSnapshot) :
    (assess_risk s).risk_factors.length = (assess_risk s).recommendations.length ∧
    (marketCapTier s).1.length = (marketCapTier s).2.length ∧
    (volumeTier s).1.length = (volumeTier s).2.length ∧
    (holderTier s).1.length = (holderTier s).2.length ∧
    (liquidityTier s).1.length = (liquidityTier s).2.length := by
  have hm : (marketCapTier s).1.length = (marketCapTier s).2.length := by
    unfold marketCapTier; split_ifs <;> rfl
  have hv : (volumeTier s).1.length = (volumeTier s).2.length := by
    unfold volumeTier; split_ifs <;> rfl
  have hh : (holderTier s).1.length = (holderTier s).2.length := by
    unfold holderTier; split_ifs <;> rfl
  have hl : (liquidityTier s).1.length = (liquidityTier s).2.length := by
    unfold liquidityTier; split_ifs <;> rfl
  refine ⟨?_, hm, hv, hh, hl⟩
  by_cases h : s.volume_24h > 0 ∧ s.market_cap = 0
  · rw [assess_risk_err s h]
    rfl
  · rw [assess_risk_eq s h]
    simp only [List.length_append, hm, hv, hh, hl]

/-- The empty description reaches the except path of _analyze_text_data. -/
theorem analyze_text_data_empty (s : TokenSnapshot) (h : s.description = "") :
    analyze_text_data s = ⟨"neutral", 1/2, "low", "minimal", none⟩ := by
  unfold analyze_text_data
  rw [if_pos h]

/-- C4: for the empty description (any other fields), _analyze_text_data
returns sentiment = "neutral" and credibility_score = 0.5 as the claim
states, but through the except path (NameError on the unbound
description_lower), so description_analysis is the empty dict (none here):
no description length of 0 is reported, contradicting the claim. -/
theorem spec_C4 (s : TokenSnapshot) (h : s.description = "") :
    analyze_text_data s = ⟨"neutral", 1/2, "low", "minimal", none⟩ :=
  analyze_text_data_empty s h

/-- C4 witness: the theorem at a concrete snapshot with empty description
and 5000 holders (the holder count does not matter on the except path). -/
theorem spec_C4_witness :
    analyze_text_data ⟨0, 0, 0, 5000, "", "", ""⟩ =
      ⟨"neutral", 1/2, "low", "minimal", none⟩ :=
  spec_C4 ⟨0, 0, 0, 5000, "", "", ""⟩ rfl

/-- C5: the social activity classifier is a total function of the mention
count with strict boundaries: very_high iff mentions > 1000, high iff
500 < mentions <= 1000, medium iff 100 < mentions <= 500, low iff
10 < mentions <= 100, else very_low; in particular 1000 maps to "high",
1001 to "very_high" and 0 to "very_low". -/
theorem spec_C5 (m : ℤ) :
    (determine_activity_level m = "very_high" ↔ m > 1000) ∧
    (determine_activity_level m = "high" ↔ 500 < m ∧ m ≤ 1000) ∧
    (determine_activity_level m = "medium" ↔ 100 < m ∧ m ≤ 500) ∧
    (determine_activity_level m = "low" ↔ 10 < m ∧ m ≤ 100) ∧
    (determine_activity_level m = "very_low" ↔ m ≤ 10) ∧
    determine_activity_level 1000 = "high" ∧
    determine_activity_level 1001 = "very_high" ∧
    determine_activity_level 0 = "very_low" := by
  refine ⟨?_, ?_, ?_, ?_, ?_, by decide, by decide, by decide⟩ <;>
    (unfold determine_activity_level
     split_ifs <;> constructor <;> intro h <;>
       first
       | rfl
       | omega
       | exact absurd h (by decide))

theorem countContained_le (terms : List String) (text : String) :
    countContained terms text ≤ terms.length :=
  List.length_filter_le _ _

theorem length_score_mem (d : String) : 0 ≤ length_score d ∧ length_score d ≤ 1 := by
  unfold length_score
  refine ⟨le_min (by positivity) (by norm_num), min_le_right _ _⟩

theorem technical_score_mem (d : String) :
    0 ≤ technical_score d ∧ technical_score d ≤ 1 := by
  have h5 : ((technical_terms.length : ℚ)) = 5 := by norm_num [technical_terms]
  have hle : (countContained technical_terms d : ℚ) ≤ 5 := by
    have h := countContained_le technical_terms d
    have : countContained technical_terms d ≤ 5 := by
      simpa [technical_terms] using h
    exact_mod_cast this
  unfold technical_score
  rw [h5]
  constructor
  · positivity
  · rw [div_le_one (by norm_num)]
    exact hle

theorem warning_score_mem (d : String) :
    0 ≤ warning_score d ∧ warning_score d ≤ 1 := by
  have h5 : ((warning_terms.length : ℚ)) = 5 := by norm_num [warning_terms]
  have hle : (countContained warning_terms d : ℚ) ≤ 5 := by
    have h := countContained_le warning_terms d
    have : countContained warning_terms d ≤ 5 := by
      simpa [warning_terms] using h
    exact_mod_cast this
  have hge : (0 : ℚ) ≤ (countContained warning_terms d : ℚ) := by positivity
  unfold warning_score
  rw [h5]
  constructor
  · rw [sub_nonneg, div_le_one (by norm_num)]
    exact hle
  · nlinarith

theorem credibility_of_mem (d : String) :
    0 ≤ credibility_of d ∧ credibility_of d ≤ 1 := by
  obtain ⟨a1, a2⟩ := length_score_mem d
  obtain ⟨b1, b2⟩ := technical_score_mem (pyLower d)
  obtain ⟨c1, c2⟩ := warning_score_mem (pyLower d)
  unfold credibility_of
  constructor
  · positivity
  · rw [div_le_one (by norm_num)]
    linarith

/-- C6: credibility_score always lies in [0,1]; for a non-empty
description it is the average of length_score = min(length/500, 1),
technical_score = (number of the 5 technical terms present)/5 and
warning_score = 1 - (number of the 5 hype terms present)/5, each of which
lies in [0,1]; for the empty description it is exactly 0.5. -/
theorem spec_C6 (s : TokenSnapshot) :
    (0 ≤ (analyze_text_data s).credibility_score ∧
      (analyze_text_data s).credibility_score ≤ 1) ∧
    (s.description ≠ "" →
      (analyze_text_data s).credibility_score =
        (length_score s.description + technical_score (pyLower s.description) +
          warning_score (pyLower s.description)) / 3 ∧
      technical_score (pyLower s.description) =
        (countContained technical_terms (pyLower s.description) : ℚ) / 5 ∧
      warning_score (pyLower s.description) =
        1 - (countContained warning_terms (pyLower s.description) : ℚ) / 5 ∧
      0 ≤ length_score s.description ∧ length_score s.description ≤ 1 ∧
      0 ≤ technical_score (pyLower s.description) ∧
      technical_score (pyLower s.description) ≤ 1 ∧
      0 ≤ warning_score (pyLower s.description) ∧
      warning_score (pyLower s.description) ≤ 1) ∧
    (s.description = "" → (analyze_text_data s).credibility_score = 1/2) := by
  by_cases hd : s.description = ""
  · rw [analyze_text_data_empty s hd]
    exact ⟨by norm_num, fun hne => absurd hd hne, fun _ => rfl⟩
  · have hcs : (analyze_text_data s).credibility_score = credibility_of s.description := by
      unfold analyze_text_data
      rw [if_neg hd]
    refine ⟨by rw [hcs]; exact credibility_of_mem s.description, fun _ => ?_, fun he => absurd he hd⟩
    have h5t : ((technical_terms.length : ℚ)) = 5 := by norm_num [technical_terms]
    have h5w : ((warning_terms.length : ℚ)) = 5 := by norm_num [warning_terms]
    refine ⟨by rw [hcs]; rfl, by unfold technical_score; rw [h5t], by unfold warning_score; rw [h5w],
      (length_score_mem s.description).1, (length_score_mem s.description).2,
      (technical_score_mem (pyLower s.description)).1,
      (technical_score_mem (pyLower s.description)).2,
      (warning_score_mem (pyLower s.description)).1,
      (warning_score_mem (pyLower s.description)).2⟩

/-- C7: the fallback snapshot of the adapter derives, for every address,
symbol as the upcased first 6 characters and name as "Token " plus the
first 6 characters unchanged; for the address 0xABCDEF123456 this gives
symbol "0XABCD" and name "Token 0xABCD". -/
theorem spec_C7 (token_address : String) :
    (fallback_token_data token_address).symbol.data =
      (token_address.data.take 6).map Char.toUpper ∧
    (fallback_token_data token_address).name.data =
      "Token ".data ++ token_address.data.take 6 ∧
    (fallback_token_data "0xABCDEF123456").symbol = "0XABCD" ∧
    (fallback_token_data "0xABCDEF123456").name = "Token 0xABCD" :=
  ⟨rfl, rfl, by decide, by decide⟩

/-- C9: sentiment matching is by case-insensitive substring, so the
description "unverified" contains the positive keyword "verified" as well
as the negative keyword "unverified": both counts are 1 and the scorer
returns "neutral", not "negative". -/
theorem spec_C9 :
    countContained positive_words (pyLower "unverified") = 1 ∧
    countContained negative_words (pyLower "unverified") = 1 ∧
    (analyze_text_data ⟨0, 0, 0, 0, "unverified", "", ""⟩).sentiment = "neutral" ∧
    (analyze_text_data ⟨0, 0, 0, 0, "unverified", "", ""⟩).sentiment ≠ "negative" := by
  refine ⟨by decide, by decide, by decide, by decide⟩

/-- C10: for every combination of address, scam type, description,
warning-signs list and optional evidence, the formatted scam tweet is at
most 280 code points long and depends on at most the first 3 warning
signs. -/
theorem spec_C10 (token_address scam_type description : String)
    (warning_signs : List String) (evidence : Option String) :
    (format_scam_tweet token_address scam_type description warning_signs evidence).length ≤ 280 ∧
    format_scam_tweet token_address scam_type description warning_signs evidence =
      format_scam_tweet token_address scam_type description (warning_signs.take 3) evidence := by
  constructor
  · show (List.take 280 _).length ≤ 280
    exact List.length_take_le _ _
  · unfold format_scam_tweet formatWarningText
    rw [List.take_take]
    norm_num
